import Mathlib

/-!
Verification of the session/stream core of the dmsg relay fabric.

The development shallowly embeds the Go source (`stream.go` and the session
file) as pure Lean functions.  Environmental nondeterminism (what the peer
sends, whether the network write succeeds, what the noise library returns) is
passed in explicitly as "environment" records; machine behaviour is otherwise
translated branch for branch from the source.  Cryptographic primitives are
modelled symbolically: a signature is the signer's public key together with
the signed fields, and the request digest is a record of the signed fields
(a collision-free hash).
-/

namespace Dmsg

/-- Public keys are modelled as naturals; they act as addresses and as
verification keys. -/
abbrev PK := Nat

/-- Secret keys, modelled as naturals. -/
abbrev SK := Nat

/-- The public key corresponding to a secret key (symbolic key derivation). -/
def pkOf (sk : SK) : PK := sk + 1

/-- Network address of a dmsg endpoint: `(PK, Port)`.  `Port = 0` denotes
unspecified.  Ports are `uint16` in the source; no arithmetic is done on
them, so `Nat` is faithful. -/
structure Addr where
  pk : PK
  port : Nat
deriving DecidableEq

/-- Error kinds of the core, named after the spec's error vocabulary
(the Go source uses `ErrReqInvalidTimestamp`, `ErrReqInvalidSrcPK`,
`ErrReqInvalidDstPK`, `ErrReqNoSession`, `ErrReqNoListener` for the
middle group). -/
inductive Err where
  | decodeFailed
  | invalidTimestamp
  | invalidSource
  | invalidDestination
  | noSession
  | noListener
  | busyListener
  | requestHashMismatch
  | invalidSignature
  | rejected
  | handshakeResidue
  | handshakeFailed
  | noiseFailed
  | writeFailed
  | openFailed
  | muxFailed
  | noFreePort
deriving DecidableEq

/-- What a porter slot holds: a listener or an in-flight stream. -/
inductive PortVal where
  | listener
  | stream
deriving DecidableEq

/-- The porter's map from port to entity, as an association list. -/
abbrev Porter := List (Nat × PortVal)

/-- Porter lookup (`Porter.PortValue` in the source's `netutil` package). -/
def lookupPort : Porter → Nat → Option PortVal
  | [], _ => none
  | (q, v) :: rest, n => if q = n then some v else lookupPort rest n

/-- Removal of a port's entry; this is what the release handle returned by
`ReserveEphemeral` does.  Removing an absent key is a no-op, which gives the
spec's idempotence of release. -/
def porterRelease : Porter → Nat → Porter
  | [], _ => []
  | (q, v) :: rest, n =>
      if q = n then porterRelease rest n else (q, v) :: porterRelease rest n

/-- Sequential probe through the ephemeral range `[49152, 65535]` starting
from an offset, looking for a free port.  `fuel` bounds the sweep at the
size of the range. -/
def probe (p : Porter) : Nat → Nat → Option Nat
  | 0, _ => none
  | fuel + 1, cur =>
      let port := 49152 + cur % 16384
      if lookupPort p port = none then some port else probe p fuel (cur + 1)

/-- Modelled from the spec: `Porter.ReserveEphemeral` (the `netutil` package
is not under `src/`).  Picks an unused port in the ephemeral range by
sequential probing from a (caller-supplied random) offset, inserts the
entity, and fails with `NoFreePort` after a full sweep.  The release handle
is `porterRelease` at the reserved port. -/
def reserveEphemeral (p : Porter) (start : Nat) (v : PortVal) :
    Option (Nat × Porter) :=
  match probe p 16384 start with
  | none => none
  | some port => some (port, (port, v) :: p)

/-- Digest of a `StreamDialRequest`'s signed fields.  `Hash()` in the source
is SHA-256 over the serialised fields; a collision-free hash is modelled by
the record of the fields themselves. -/
structure ReqHash where
  timestamp : Int
  srcAddr : Addr
  dstAddr : Addr
  noiseMsg : List Nat
deriving DecidableEq

/-- A signature over a request: the signer's public key together with the
digest of what was signed (symbolic signature model). -/
structure RSig where
  signer : PK
  content : ReqHash
deriving DecidableEq

/-- The dial request record (`StreamDialRequest` in `stream.go`). -/
structure StreamDialRequest where
  timestamp : Int
  srcAddr : Addr
  dstAddr : Addr
  noiseMsg : List Nat
  sig : Option RSig
deriving DecidableEq

/-- The request digest over the signed fields (`req.Hash()`). -/
def StreamDialRequest.hash (r : StreamDialRequest) : ReqHash :=
  ⟨r.timestamp, r.srcAddr, r.dstAddr, r.noiseMsg⟩

/-- Signing a request with a secret key (`req.Sign(sk)`). -/
def StreamDialRequest.SignReq (r : StreamDialRequest) (sk : SK) :
    StreamDialRequest :=
  { r with sig := some ⟨pkOf sk, r.hash⟩ }

/-- Modelled from the spec: `StreamDialRequest.Verify` lives in a types file
not under `src/`.  Per the spec, the responder accepts requests whose
timestamp is within 30 s of now and whose signature is valid under
`SrcAddr.PK`. -/
def StreamDialRequest.VerifyReq (r : StreamDialRequest) (now : Int) : Bool :=
  decide ((now - r.timestamp).natAbs ≤ 30000000000) &&
    decide (r.sig = some ⟨r.srcAddr.pk, r.hash⟩)

/-- A signature over a response: signer's public key plus the signed fields. -/
structure RespSig where
  signer : PK
  reqHash : ReqHash
  accepted : Bool
  noiseMsg : List Nat
deriving DecidableEq

/-- The dial response record (`StreamDialResponse` / `DialResponse`). -/
structure DialResponse where
  reqHash : ReqHash
  accepted : Bool
  noiseMsg : List Nat
  sig : Option RespSig
deriving DecidableEq

/-- Signing a response with a secret key (`resp.Sign(sk)`). -/
def DialResponse.SignResp (r : DialResponse) (sk : SK) : DialResponse :=
  { r with sig := some ⟨pkOf sk, r.reqHash, r.accepted, r.noiseMsg⟩ }

/-- Modelled from the spec: `DialResponse.Verify` lives in a types file not
under `src/`.  Per the spec the dialer (and the relay) verify that
`RequestHash` equals the outstanding request's hash, that the signature is
valid under the callee's public key, and that `Accepted` is true, failing
with `Rejected` otherwise. -/
def DialResponse.VerifyResp (r : DialResponse) (wantPK : PK)
    (wantHash : ReqHash) : Option Err :=
  if r.reqHash ≠ wantHash then some .requestHashMismatch
  else if r.sig ≠ some ⟨wantPK, r.reqHash, r.accepted, r.noiseMsg⟩ then
    some .invalidSignature
  else if r.accepted = false then some .rejected
  else none

/-- Identity of a client session as seen by a stream: the local key pair
(`s.ses.LocalPK()`, `s.ses.localSK()`). -/
structure ClientSession where
  lPK : PK
  lSK : SK
deriving DecidableEq

/-- The handshake-dependent fields of a dmsg `Stream`.  The Go `close`
closure is exactly the porter's release handle for the reserved local port,
so it is modelled as `closeFn : Option Nat` — the port it would release, or
`none` when no reservation is held.  The noise state is reduced to the
`Initiator` flag passed to `noise.New`; handshake payload outcomes come from
the environment. -/
structure StreamSt where
  lAddr : Addr
  rAddr : Addr
  nsInitiator : Bool
  closeFn : Option Nat
deriving DecidableEq

/-- A freshly opened stream before any handshake fields are set
(`&Stream{ses: cSes, yStr: yStr}`). -/
def emptyStream : StreamSt := ⟨⟨0, 0⟩, ⟨0, 0⟩, false, none⟩

/-- `Stream.prepareFields`: records the initiator flag of the fresh noise
object and the local/remote addresses. -/
def prepareFields (s : StreamSt) (init : Bool) (lAddr rAddr : Addr) :
    StreamSt :=
  { s with lAddr := lAddr, rAddr := rAddr, nsInitiator := init }

/-- `Stream.LocalAddr()`. -/
def localAddr (s : StreamSt) : Addr := s.lAddr

/-- `Stream.RemoteAddr()`. -/
def remoteAddr (s : StreamSt) : Addr := s.rAddr

/-- Environment of `Stream.writeRequest`: the porter shared by the client,
the random probe offset used by `ReserveEphemeral`, the current time, the
result of `ns.MakeHandshakeMessage`, and whether the encrypted-gob write
succeeds. -/
structure WriteReqEnv where
  porter : Porter
  probeStart : Nat
  now : Int
  nsMsg : Option (List Nat)
  writeOk : Bool

/-- Result of `Stream.writeRequest`: the error if any, the request that was
built (once built), the stream fields as left by the function, and the
porter afterwards.  On failure after reservation the reservation is NOT
released here — that is the caller's job via `Close`. -/
structure WriteReqOut where
  err : Option Err
  req : Option StreamDialRequest
  st : StreamSt
  porter : Porter
deriving DecidableEq

/-- `Stream.writeRequest`: reserve an ephemeral port (storing the release
closure), prepare fields as initiator with local address
`(LocalPK, reserved port)`, build and sign the request, and write it. -/
def writeRequest (ses : ClientSession) (s0 : StreamSt) (env : WriteReqEnv)
    (rAddr : Addr) : WriteReqOut :=
  match reserveEphemeral env.porter env.probeStart .stream with
  | none => ⟨some .noFreePort, none, s0, env.porter⟩
  | some (lPort, p1) =>
      let s1 := prepareFields { s0 with closeFn := some lPort } true
        ⟨ses.lPK, lPort⟩ rAddr
      match env.nsMsg with
      | none => ⟨some .noiseFailed, none, s1, p1⟩
      | some msg =>
          let req := StreamDialRequest.SignReq
            ⟨env.now, s1.lAddr, s1.rAddr, msg, none⟩ ses.lSK
          if env.writeOk then ⟨none, some req, s1, p1⟩
          else ⟨some .writeFailed, some req, s1, p1⟩

/-- Environment of `Stream.readRequest`: the decoded request (if the
encrypted-gob read and decode succeed), the current time, and the outcome of
`ns.ProcessHandshakeMessage`. -/
structure ReadReqEnv where
  decoded : Option StreamDialRequest
  now : Int
  noiseOk : Bool

/-- Result of `Stream.readRequest`. The porter is returned so that theorems
can state that the accepting side leaves it untouched (the source function
performs no porter operation). -/
structure ReadReqOut where
  err : Option Err
  req : Option StreamDialRequest
  st : StreamSt
  porter : Porter
deriving DecidableEq

/-- `Stream.readRequest`: decode, verify (any verification failure is mapped
to `ErrReqInvalidTimestamp` by the source), check `DstAddr.PK` against the
session's local key, prepare fields as responder with
`lAddr := req.DstAddr` and `rAddr := req.SrcAddr`, then process the noise
message.  No port is reserved and no release closure is installed. -/
def readRequest (ses : ClientSession) (s0 : StreamSt) (p : Porter)
    (env : ReadReqEnv) : ReadReqOut :=
  match env.decoded with
  | none => ⟨some .decodeFailed, none, s0, p⟩
  | some req =>
      if !(req.VerifyReq env.now) then ⟨some .invalidTimestamp, some req, s0, p⟩
      else if req.dstAddr.pk ≠ ses.lPK then
        ⟨some .invalidDestination, some req, s0, p⟩
      else
        let s1 := prepareFields s0 false req.dstAddr req.srcAddr
        if !env.noiseOk then ⟨some .noiseFailed, some req, s1, p⟩
        else ⟨none, some req, s1, p⟩

/-- Environment of `Stream.writeResponse`: the porter at lookup time, the
result of `ns.MakeHandshakeMessage`, whether the encrypted-gob write
succeeds, and whether `lis.introduceStream` succeeds. -/
structure WriteRespEnv where
  porter : Porter
  nsMsg : Option (List Nat)
  writeOk : Bool
  introduceOk : Bool

/-- Result of `Stream.writeResponse`: the error if any, the response written
to the dialer if one was written, and whether the stream was introduced to
the listener. -/
structure WriteRespOut where
  err : Option Err
  written : Option DialResponse
  introduced : Bool
deriving DecidableEq

/-- `Stream.writeResponse`: look up the stream's local port in the porter;
unless it resolves to a `Listener`, fail with `ErrReqNoListener` (nothing is
written to the dialer in that case).  Otherwise build a signed accepting
response, write it, and push the stream to the listener. -/
def writeResponse (ses : ClientSession) (s : StreamSt) (env : WriteRespEnv)
    (req : StreamDialRequest) : WriteRespOut :=
  match lookupPort env.porter s.lAddr.port with
  | some .listener =>
      match env.nsMsg with
      | none => ⟨some .noiseFailed, none, false⟩
      | some msg =>
          let resp := DialResponse.SignResp ⟨req.hash, true, msg, none⟩ ses.lSK
          if !env.writeOk then ⟨some .writeFailed, none, false⟩
          else if !env.introduceOk then ⟨some .busyListener, some resp, false⟩
          else ⟨none, some resp, true⟩
  | _ => ⟨some .noListener, none, false⟩

/-- Environment of `Stream.readResponse`: the decoded response (if the
encrypted-gob read succeeds) and the outcome of
`ns.ProcessHandshakeMessage`. -/
structure ReadRespEnv where
  decoded : Option DialResponse
  noiseOk : Bool

/-- `Stream.readResponse`: decode the response, verify it against the
outstanding request (`resp.Verify(req.DstAddr.PK, req.Hash())`), then
process the noise message.  The response is surfaced (second component
`some`) only when every check passed. -/
def readResponse (env : ReadRespEnv) (req : StreamDialRequest) :
    Option Err × Option DialResponse :=
  match env.decoded with
  | none => (some .decodeFailed, none)
  | some resp =>
      match resp.VerifyResp req.dstAddr.pk req.hash with
      | some e => (some e, none)
      | none =>
          if !env.noiseOk then (some .noiseFailed, none)
          else (none, some resp)

/-- Observable world of `Stream.Close`: the porter, how many times the
port-release closure has been invoked, and whether the yamux sub-stream has
been closed. -/
structure CloseWorld where
  porter : Porter
  releaseCalls : Nat
  subClosed : Bool
deriving DecidableEq

/-- `Stream.Close`: a nil stream is a no-op returning no error; otherwise,
if the release closure is set it is invoked (every call invokes it again),
and the sub-stream is closed.  The closure itself is the porter's release
handle, whose removal is idempotent. -/
def streamClose (s : Option StreamSt) (w : CloseWorld) :
    CloseWorld × Option Err :=
  match s with
  | none => (w, none)
  | some st =>
      let w1 := match st.closeFn with
        | some p => { w with porter := porterRelease w.porter p,
                             releaseCalls := w.releaseCalls + 1 }
        | none => w
      ({ w1 with subClosed := true }, none)

/-- Environment of session bring-up (`InitiateSession` / `RespondSession`):
whether `noise.New` succeeds, whether the noise handshake over the buffered
reader completes, how many bytes `r.Buffered()` reports when the handshake
completes, whether the yamux setup call succeeds, and (responder side) the
remote static key learned during the handshake. -/
structure HsEnv where
  nsOk : Bool
  hsOk : Bool
  buffered : Nat
  muxOk : Bool
  remoteStatic : PK

/-- Result of session bring-up: the error if any, the created session's
authenticated peer key if a session was created, and whether the multiplexer
was started on the connection (the yamux constructor was reached). -/
structure SessionUpOut where
  err : Option Err
  sessionPK : Option PK
  muxStarted : Bool
deriving DecidableEq

/-- `InitiateSession`: create the noise object, run the initiator handshake
through a buffered reader, fail if the reader still holds bytes, then start
the yamux client on the raw connection and build the session with the given
remote key. -/
def InitiateSession (env : HsEnv) (rPK : PK) : SessionUpOut :=
  if !env.nsOk then ⟨some .noiseFailed, none, false⟩
  else if !env.hsOk then ⟨some .handshakeFailed, none, false⟩
  else if env.buffered > 0 then ⟨some .handshakeResidue, none, false⟩
  else if !env.muxOk then ⟨some .muxFailed, none, true⟩
  else ⟨none, some rPK, true⟩

/-- `RespondSession`: like `InitiateSession` but with the responder
handshake, the yamux server role, and the peer key learned from the
handshake (`ns.RemoteStatic()`). -/
def RespondSession (env : HsEnv) : SessionUpOut :=
  if !env.nsOk then ⟨some .noiseFailed, none, false⟩
  else if !env.hsOk then ⟨some .handshakeFailed, none, false⟩
  else if env.buffered > 0 then ⟨some .handshakeResidue, none, false⟩
  else if !env.muxOk then ⟨some .muxFailed, none, true⟩
  else ⟨none, some env.remoteStatic, true⟩

/-- Environment of `Session.forwardRequest` on the destination session:
whether `OpenStream` succeeds, whether the encrypted-gob write of the
request succeeds, and the decoded response if the read succeeds. -/
structure ForwardEnv where
  openOk : Bool
  writeOk : Bool
  decoded : Option DialResponse

/-- Result of `Session.forwardRequest`: the error if any, the verified
response if obtained, and whether the destination-side sub-stream was closed
by the function (it closes it on every failure after opening). -/
structure ForwardOut where
  err : Option Err
  resp : Option DialResponse
  dstSubClosed : Bool
deriving DecidableEq

/-- `Session.forwardRequest`: open a sub-stream on the destination session,
write the request, read the response, and verify it against the request
(`resp.Verify(req.DstAddr.PK, req.Hash())`); any failure closes the
sub-stream and propagates. -/
def forwardRequest (env : ForwardEnv) (req : StreamDialRequest) : ForwardOut :=
  if !env.openOk then ⟨some .openFailed, none, false⟩
  else if !env.writeOk then ⟨some .writeFailed, none, true⟩
  else match env.decoded with
  | none => ⟨some .decodeFailed, none, true⟩
  | some resp =>
      match resp.VerifyResp req.dstAddr.pk req.hash with
      | some e => ⟨some e, none, true⟩
      | none => ⟨none, some resp, false⟩

/-- Environment of `Session.handleServerStream`: the authenticated peer key
of the inbound session (`s.rPK`), the current time, the decoded request if
the encrypted-gob read succeeds, which destination keys the session getter
resolves, the forwarding environment on the destination session, and
whether the response write back on the inbound sub-stream succeeds. -/
structure ServerEnv where
  rPK : PK
  now : Int
  decoded : Option StreamDialRequest
  hasSession : PK → Bool
  fwd : ForwardEnv
  writeRespOk : Bool

/-- Result of `Session.handleServerStream`: the error if any, whether the
request was forwarded to a destination session (`s2.forwardRequest` was
invoked), and whether the byte-pump (`netutil.CopyReadWriter`) was
entered. -/
structure ServerOut where
  err : Option Err
  forwardAttempted : Bool
  relayed : Bool
deriving DecidableEq

/-- `Session.handleServerStream`: read and verify the request (any
verification failure becomes `ErrReqInvalidTimestamp`; a source key
different from the session's authenticated peer becomes
`ErrReqInvalidSrcPK` before anything is forwarded), look up the destination
session, forward the request, send the response back, and relay bytes. -/
def handleServerStream (env : ServerEnv) : ServerOut :=
  match env.decoded with
  | none => ⟨some .decodeFailed, false, false⟩
  | some req =>
      if !(req.VerifyReq env.now) then ⟨some .invalidTimestamp, false, false⟩
      else if req.srcAddr.pk ≠ env.rPK then ⟨some .invalidSource, false, false⟩
      else if !(env.hasSession req.dstAddr.pk) then
        ⟨some .noSession, false, false⟩
      else
        let f := forwardRequest env.fwd req
        match f.err with
        | some e => ⟨some e, true, false⟩
        | none =>
            if !env.writeRespOk then ⟨some .writeFailed, true, false⟩
            else ⟨none, true, true⟩

/-- `Session.AcceptServerStream`: runs `handleServerStream` in a goroutine
and always closes the inbound sub-stream when it returns (the second
component records that the sub-stream was closed). -/
def AcceptServerStream (env : ServerEnv) : ServerOut × Bool :=
  (handleServerStream env, true)

/-- Observable state of `Session.Close`: the client's porter and the
multiplexer flags. -/
structure SessCloseSt where
  porter : Porter
  goAwaySent : Bool
  muxClosed : Bool
deriving DecidableEq

/-- `Session.Close`: sends a yamux `GoAway` (graceful close) and closes the
multiplexer (which closes all its sub-streams, per the multiplexer
contract).  The porter-release sweep present in the source is commented out
behind a TODO, so the porter is left untouched. -/
def sessionClose (s : SessCloseSt) : SessCloseSt :=
  { s with goAwaySent := true, muxClosed := true }

/-- Environment of a full client dial: whether `OpenStream` on the session
multiplexer succeeds, plus the environments of the request write and the
response read. -/
structure DialEnv where
  openOk : Bool
  wEnv : WriteReqEnv
  rEnv : ReadRespEnv

/-- Result of a full client dial: the error if any, the established stream
if successful, the porter afterwards, and whether the sub-stream was closed
during cleanup. -/
structure DialOut where
  err : Option Err
  st : Option StreamSt
  porter : Porter
  subClosed : Bool
deriving DecidableEq

/-- Modelled from the spec: `ClientSession.DialStream`, the dial
orchestration calling `writeRequest` and `readResponse`, is not under
`src/` (only the stream-level steps are).  Per the spec, errors propagate
and on any failure after port reservation the reservation is released and
the sub-stream is closed — which is exactly what calling the source's
`Stream.Close` on the partially-built stream does. -/
def DialStream (ses : ClientSession) (env : DialEnv) (dst : Addr) : DialOut :=
  if !env.openOk then ⟨some .openFailed, none, env.wEnv.porter, false⟩
  else
    let w := writeRequest ses emptyStream env.wEnv dst
    match w.err, w.req with
    | none, some req =>
        match readResponse env.rEnv req with
        | (some e, _) =>
            let wld := (streamClose (some w.st) ⟨w.porter, 0, false⟩).1
            ⟨some e, none, wld.porter, wld.subClosed⟩
        | (none, _) => ⟨none, some w.st, w.porter, false⟩
    | some e, _ =>
        let wld := (streamClose (some w.st) ⟨w.porter, 0, false⟩).1
        ⟨some e, none, wld.porter, wld.subClosed⟩
    | none, none =>
        let wld := (streamClose (some w.st) ⟨w.porter, 0, false⟩).1
        ⟨some .decodeFailed, none, wld.porter, wld.subClosed⟩

/-- `Stream.Write`: the user's bytes are passed unchanged to
`s.yStr.Write(b)` — the stream-scoped cipher (`s.nsConn`, prepared in
`prepareFields`) is not used; the source marks this with a TODO.  The result
is the payload handed to the yamux sub-stream. -/
def streamWrite (b : List Nat) : List Nat := b

/-- `Stream.Read`: returns the yamux sub-stream payload unchanged
(`s.yStr.Read(b)`, with the same TODO). -/
def streamRead (payload : List Nat) : List Nat := payload

/-- `netutil.CopyReadWriter` on the server: the relay copies the sub-stream
payload verbatim between the two sub-streams of a forwarded stream. -/
def relayForward (payload : List Nat) : List Nat := payload

/-! Helper lemmas about the porter. -/

theorem lookupPort_release_self (p : Porter) (n : Nat) :
    lookupPort (porterRelease p n) n = none := by
  induction p with
  | nil => rfl
  | cons hd tl ih =>
      obtain ⟨q, v⟩ := hd
      by_cases hq : q = n
      · simpa [porterRelease, hq] using ih
      · simpa [porterRelease, lookupPort, hq] using ih

theorem porterRelease_idem (p : Porter) (n : Nat) :
    porterRelease (porterRelease p n) n = porterRelease p n := by
  induction p with
  | nil => rfl
  | cons hd tl ih =>
      obtain ⟨q, v⟩ := hd
      by_cases hq : q = n
      · simpa [porterRelease, hq] using ih
      · simpa [porterRelease, hq] using ih

theorem probe_free (p : Porter) (fuel cur port : Nat)
    (h : probe p fuel cur = some port) : lookupPort p port = none := by
  induction fuel generalizing cur with
  | zero => simp [probe] at h
  | succ n ih =>
      rw [probe] at h
      by_cases hfree : lookupPort p (49152 + cur % 16384) = none
      · simp [hfree] at h
        simpa [← h] using hfree
      · simp [hfree] at h
        exact ih _ h

theorem reserveEphemeral_some (p : Porter) (s : Nat) (v : PortVal)
    (port : Nat) (p1 : Porter)
    (h : reserveEphemeral p s v = some (port, p1)) :
    lookupPort p port = none ∧ p1 = (port, v) :: p := by
  unfold reserveEphemeral at h
  rcases hp : probe p 16384 s with _ | q
  · rw [hp] at h; simp at h
  · rw [hp] at h
    have h' : q = port ∧ (q, v) :: p = p1 := by simpa using h
    obtain ⟨rfl, rfl⟩ := h'
    exact ⟨probe_free p 16384 s q hp, rfl⟩

/-! Helper lemmas about the stream-level operations. -/

theorem readRequest_porter (ses : ClientSession) (s0 : StreamSt) (p : Porter)
    (env : ReadReqEnv) : (readRequest ses s0 p env).porter = p := by
  unfold readRequest
  rcases env.decoded with _ | req
  · rfl
  · by_cases h1 : req.VerifyReq env.now <;>
      by_cases h2 : req.dstAddr.pk = ses.lPK <;>
      by_cases h3 : env.noiseOk <;>
      simp [h1, h2, h3]

theorem readRequest_closeFn (ses : ClientSession) (s0 : StreamSt) (p : Porter)
    (env : ReadReqEnv) : (readRequest ses s0 p env).st.closeFn = s0.closeFn := by
  unfold readRequest
  rcases env.decoded with _ | req
  · rfl
  · by_cases h1 : req.VerifyReq env.now <;>
      by_cases h2 : req.dstAddr.pk = ses.lPK <;>
      by_cases h3 : env.noiseOk <;>
      simp [h1, h2, h3, prepareFields]

theorem readRequest_ok (ses : ClientSession) (s0 : StreamSt) (p : Porter)
    (env : ReadReqEnv) (req : StreamDialRequest)
    (hdec : env.decoded = some req)
    (h : (readRequest ses s0 p env).err = none) :
    (readRequest ses s0 p env).st.lAddr = req.dstAddr ∧
    (readRequest ses s0 p env).st.rAddr = req.srcAddr := by
  unfold readRequest at *
  rw [hdec] at h ⊢
  by_cases h1 : req.VerifyReq env.now <;>
    by_cases h2 : req.dstAddr.pk = ses.lPK <;>
    by_cases h3 : env.noiseOk <;>
    simp [h1, h2, h3, prepareFields] at h ⊢

theorem writeRequest_inv (ses : ClientSession) (s0 : StreamSt)
    (env : WriteReqEnv) (rAddr : Addr)
    (h : (writeRequest ses s0 env rAddr).err = none) :
    ∃ lPort msg,
      lookupPort env.porter lPort = none ∧
      env.nsMsg = some msg ∧ env.writeOk = true ∧
      writeRequest ses s0 env rAddr =
        ⟨none,
         some (StreamDialRequest.SignReq
           ⟨env.now, ⟨ses.lPK, lPort⟩, rAddr, msg, none⟩ ses.lSK),
         ⟨⟨ses.lPK, lPort⟩, rAddr, true, some lPort⟩,
         (lPort, .stream) :: env.porter⟩ := by
  rcases hres : reserveEphemeral env.porter env.probeStart .stream
    with _ | ⟨lPort, p1⟩
  · simp [writeRequest, hres] at h
  · obtain ⟨hfree, hp1⟩ := reserveEphemeral_some _ _ _ _ _ hres
    subst hp1
    rcases hmsg : env.nsMsg with _ | msg
    · simp [writeRequest, hres, hmsg] at h
    · by_cases hw : env.writeOk
      · refine ⟨lPort, msg, hfree, rfl, hw, ?_⟩
        simp [writeRequest, hres, hmsg, hw, prepareFields]
      · simp [writeRequest, hres, hmsg, hw] at h

theorem verifyResp_none_iff (r : DialResponse) (pk : PK) (h : ReqHash) :
    r.VerifyResp pk h = none ↔
      (r.reqHash = h ∧
       r.sig = some ⟨pk, r.reqHash, r.accepted, r.noiseMsg⟩ ∧
       r.accepted = true) := by
  unfold DialResponse.VerifyResp
  by_cases h1 : r.reqHash = h <;>
    by_cases h2 : r.sig = some ⟨pk, r.reqHash, r.accepted, r.noiseMsg⟩ <;>
    by_cases h3 : r.accepted = false <;>
    simp_all

theorem verifyResp_rejected (r : DialResponse) (pk : PK) (h : ReqHash)
    (h1 : r.reqHash = h)
    (h2 : r.sig = some ⟨pk, r.reqHash, r.accepted, r.noiseMsg⟩)
    (h3 : r.accepted = false) :
    r.VerifyResp pk h = some .rejected := by
  unfold DialResponse.VerifyResp
  simp [h1, h2, h3]

theorem dial_cleanup (ses : ClientSession) (env : DialEnv) (dst : Addr)
    (port : Nat) (e : Err)
    (hopen : env.openOk = true)
    (hport : (writeRequest ses emptyStream env.wEnv dst).st.closeFn = some port)
    (herr : (DialStream ses env dst).err = some e) :
    lookupPort (DialStream ses env dst).porter port = none ∧
    (DialStream ses env dst).subClosed = true := by
  rcases hw : (writeRequest ses emptyStream env.wEnv dst).err with _ | we
  · rcases hq : (writeRequest ses emptyStream env.wEnv dst).req with _ | req
    · have hd :
          (DialStream ses env dst).porter =
            porterRelease (writeRequest ses emptyStream env.wEnv dst).porter
              port ∧
          (DialStream ses env dst).subClosed = true := by
        simp [DialStream, hopen, hw, hq, streamClose, hport]
      rw [hd.1]
      exact ⟨lookupPort_release_self _ _, hd.2⟩
    · rcases hr : readResponse env.rEnv req with ⟨re, rr⟩
      rcases re with _ | e2
      · exfalso
        have : (DialStream ses env dst).err = none := by
          simp [DialStream, hopen, hw, hq, hr]
        rw [this] at herr
        exact Option.noConfusion herr
      · have hd :
            (DialStream ses env dst).porter =
              porterRelease (writeRequest ses emptyStream env.wEnv dst).porter
                port ∧
            (DialStream ses env dst).subClosed = true := by
          simp [DialStream, hopen, hw, hq, hr, streamClose, hport]
        rw [hd.1]
        exact ⟨lookupPort_release_self _ _, hd.2⟩
  · have hd :
        (DialStream ses env dst).porter =
          porterRelease (writeRequest ses emptyStream env.wEnv dst).porter
            port ∧
        (DialStream ses env dst).subClosed = true := by
      rcases hq : (writeRequest ses emptyStream env.wEnv dst).req with _ | req <;>
        simp [DialStream, hopen, hw, hq, streamClose, hport]
    rw [hd.1]
    exact ⟨lookupPort_release_self _ _, hd.2⟩

/-! Claim theorems. -/

/-- C1: the code contradicts the claim.  `Stream.Write` hands the user's
bytes unchanged to the yamux sub-stream (the stream-scoped cipher `nsConn`
prepared in `prepareFields` is unused — the source marks the spot with
`TODO: Use s.nsConn`), and the relay copies sub-stream payload verbatim, so
the exact plaintext "ping" written by one client traverses the server and
is what the peer's `Stream.Read` returns. -/
theorem c1_plaintext_traverses_relay :
    relayForward (streamWrite [112, 105, 110, 103]) = [112, 105, 110, 103] ∧
    streamRead (relayForward (streamWrite [112, 105, 110, 103])) =
      [112, 105, 110, 103] := by
  exact ⟨rfl, rfl⟩

/-- C2: a `DialResponse` whose `RequestHash` differs from the request's
hash, or whose signature is not valid under `dst.PK`, or whose `Accepted`
is false, is never surfaced: `Stream.readResponse` and the relay's
`Session.forwardRequest` both fail on it, and when the only defect is
`Accepted = false` the dialer's error is `Rejected`. -/
theorem c2_bad_response_never_surfaced (req : StreamDialRequest)
    (resp : DialResponse) (env : ReadRespEnv) (fenv : ForwardEnv)
    (hdec : env.decoded = some resp) (hfdec : fenv.decoded = some resp)
    (hbad : resp.reqHash ≠ req.hash ∨
      resp.sig ≠ some ⟨req.dstAddr.pk, resp.reqHash, resp.accepted,
        resp.noiseMsg⟩ ∨
      resp.accepted = false) :
    ((readResponse env req).1.isSome ∧ (readResponse env req).2 = none) ∧
    ((forwardRequest fenv req).err.isSome ∧
      (forwardRequest fenv req).resp = none) ∧
    (resp.reqHash = req.hash →
      resp.sig = some ⟨req.dstAddr.pk, resp.reqHash, resp.accepted,
        resp.noiseMsg⟩ →
      resp.accepted = false →
      (readResponse env req).1 = some .rejected) := by
  have hv : resp.VerifyResp req.dstAddr.pk req.hash ≠ none := by
    intro hnone
    rw [verifyResp_none_iff] at hnone
    rcases hbad with hb | hb | hb
    · exact hb hnone.1
    · exact hb hnone.2.1
    · rw [hnone.2.2] at hb; exact Bool.noConfusion hb
  rcases hvr : resp.VerifyResp req.dstAddr.pk req.hash with _ | e
  · exact absurd hvr hv
  · refine ⟨?_, ?_, ?_⟩
    · simp [readResponse, hdec, hvr]
    · by_cases ho : fenv.openOk <;> by_cases hw : fenv.writeOk <;>
        simp [forwardRequest, hfdec, hvr, ho, hw]
    · intro h1 h2 h3
      have : resp.VerifyResp req.dstAddr.pk req.hash = some .rejected :=
        verifyResp_rejected resp req.dstAddr.pk req.hash h1 h2 h3
      simp [readResponse, hdec, this]

/-- Witness for C2: a concrete response signed by the callee over the right
request hash but with `Accepted = false` makes the dial fail with
`Rejected`. -/
theorem c2_witness :
    (readResponse
        ⟨some ⟨⟨0, ⟨1, 49152⟩, ⟨2, 5000⟩, []⟩, false, [],
          some ⟨2, ⟨0, ⟨1, 49152⟩, ⟨2, 5000⟩, []⟩, false, []⟩⟩, true⟩
        ⟨0, ⟨1, 49152⟩, ⟨2, 5000⟩, [],
          some ⟨1, ⟨0, ⟨1, 49152⟩, ⟨2, 5000⟩, []⟩⟩⟩).1 = some .rejected :=
  (c2_bad_response_never_surfaced
      ⟨0, ⟨1, 49152⟩, ⟨2, 5000⟩, [],
        some ⟨1, ⟨0, ⟨1, 49152⟩, ⟨2, 5000⟩, []⟩⟩⟩
      ⟨⟨0, ⟨1, 49152⟩, ⟨2, 5000⟩, []⟩, false, [],
        some ⟨2, ⟨0, ⟨1, 49152⟩, ⟨2, 5000⟩, []⟩, false, []⟩⟩
      ⟨some ⟨⟨0, ⟨1, 49152⟩, ⟨2, 5000⟩, []⟩, false, [],
        some ⟨2, ⟨0, ⟨1, 49152⟩, ⟨2, 5000⟩, []⟩, false, []⟩⟩, true⟩
      ⟨true, true, some ⟨⟨0, ⟨1, 49152⟩, ⟨2, 5000⟩, []⟩, false, [],
        some ⟨2, ⟨0, ⟨1, 49152⟩, ⟨2, 5000⟩, []⟩, false, []⟩⟩⟩
      rfl rfl (Or.inr (Or.inr (by decide)))).2.2
    (by decide) (by decide) (by decide)

/-- C3: for both the initiator-side and the responder-side session
bring-up, a non-empty buffered reader after the handshake fails the
bring-up with the handshake-residue error, no session is created, and the
multiplexer is never started; conversely a session is only ever created
with an empty buffer. -/
theorem c3_handshake_residue (env : HsEnv) (rPK : PK)
    (hns : env.nsOk = true) (hhs : env.hsOk = true)
    (hbuf : 0 < env.buffered) :
    (InitiateSession env rPK = ⟨some .handshakeResidue, none, false⟩ ∧
     RespondSession env = ⟨some .handshakeResidue, none, false⟩) ∧
    (∀ env2 : HsEnv, ∀ rPK2 : PK,
      ((InitiateSession env2 rPK2).sessionPK.isSome → env2.buffered = 0) ∧
      ((RespondSession env2).sessionPK.isSome → env2.buffered = 0)) := by
  constructor
  · constructor <;> simp [InitiateSession, RespondSession, hns, hhs, hbuf]
  · intro env2 rPK2
    constructor
    · intro hsome
      by_contra h3
      have h3' : 0 < env2.buffered := Nat.pos_of_ne_zero h3
      have hnone : (InitiateSession env2 rPK2).sessionPK = none := by
        unfold InitiateSession
        by_cases h1 : env2.nsOk <;> by_cases h2 : env2.hsOk <;>
          simp [h1, h2, h3']
      rw [hnone] at hsome
      simp at hsome
    · intro hsome
      by_contra h3
      have h3' : 0 < env2.buffered := Nat.pos_of_ne_zero h3
      have hnone : (RespondSession env2).sessionPK = none := by
        unfold RespondSession
        by_cases h1 : env2.nsOk <;> by_cases h2 : env2.hsOk <;>
          simp [h1, h2, h3']
      rw [hnone] at hsome
      simp at hsome

/-- Witness for C3: one junk byte left in the buffered reader after the
handshake makes both bring-ups fail with handshake residue and no
multiplexer. -/
theorem c3_witness :
    (InitiateSession ⟨true, true, 1, true, 9⟩ 7
        = ⟨some .handshakeResidue, none, false⟩ ∧
      RespondSession ⟨true, true, 1, true, 9⟩
        = ⟨some .handshakeResidue, none, false⟩) ∧
    (∀ env2 : HsEnv, ∀ rPK2 : PK,
      ((InitiateSession env2 rPK2).sessionPK.isSome → env2.buffered = 0) ∧
      ((RespondSession env2).sessionPK.isSome → env2.buffered = 0)) :=
  c3_handshake_residue ⟨true, true, 1, true, 9⟩ 7 rfl rfl (by decide)

/-- C4: a `DialRequest` read by the server whose `SrcAddr.PK` is not the
authenticated peer key of the inbound session is rejected with the
invalid-source error, the request is never forwarded to any destination
session, no relaying happens, and the sub-stream is closed. -/
theorem c4_invalid_source (env : ServerEnv) (req : StreamDialRequest)
    (hdec : env.decoded = some req)
    (hver : req.VerifyReq env.now = true)
    (hsrc : req.srcAddr.pk ≠ env.rPK) :
    AcceptServerStream env = (⟨some .invalidSource, false, false⟩, true) := by
  simp [AcceptServerStream, handleServerStream, hdec, hver, hsrc]

/-- Witness for C4: a well-signed, fresh request whose source key 5 differs
from the session's authenticated peer key 7 is rejected with the
invalid-source error and not forwarded. -/
theorem c4_witness :
    AcceptServerStream
        ⟨7, 0,
         some (StreamDialRequest.SignReq ⟨0, ⟨5, 49152⟩, ⟨2, 80⟩, [], none⟩ 4),
         fun _ => true, ⟨true, true, none⟩, true⟩
      = (⟨some .invalidSource, false, false⟩, true) :=
  c4_invalid_source _ _ rfl (by decide) (by decide)

/-- C5 counterexample: the claim that each accepted stream reserves a fresh
ephemeral port distinct from the listener's port is false.  On the
accepting side, `readRequest` succeeds on a well-formed request to listener
port 5000 while leaving the porter untouched, installing no release closure
(so the accepted live stream holds zero porter reservations, not one), and
making the stream's local port the listener's own port 5000. -/
theorem c5_counterexample :
    readRequest ⟨2, 1⟩ emptyStream [(5000, .listener)]
        ⟨some ⟨0, ⟨1, 49300⟩, ⟨2, 5000⟩, [],
          some ⟨1, ⟨0, ⟨1, 49300⟩, ⟨2, 5000⟩, []⟩⟩⟩, 0, true⟩
      = ⟨none,
         some ⟨0, ⟨1, 49300⟩, ⟨2, 5000⟩, [],
           some ⟨1, ⟨0, ⟨1, 49300⟩, ⟨2, 5000⟩, []⟩⟩⟩,
         ⟨⟨2, 5000⟩, ⟨1, 49300⟩, false, none⟩,
         [(5000, .listener)]⟩ := by
  decide

/-- C5 amended: only the dialing side reserves a port.  A successful
`writeRequest` makes exactly one fresh reservation — the reserved port was
previously absent, the porter gains exactly that entry, and the installed
release closure (run by `Stream.Close`) removes it — while `readRequest`
on the accepting side never changes the porter and never installs a release
closure. -/
theorem c5_amended_reservations (ses : ClientSession) (s0 : StreamSt)
    (env : WriteReqEnv) (rAddr : Addr) (port : Nat)
    (hok : (writeRequest ses s0 env rAddr).err = none)
    (hport : (writeRequest ses s0 env rAddr).st.closeFn = some port)
    (ses2 : ClientSession) (s2 : StreamSt) (p : Porter) (renv : ReadReqEnv) :
    (lookupPort env.porter port = none ∧
     (writeRequest ses s0 env rAddr).porter = (port, .stream) :: env.porter ∧
     lookupPort
       (streamClose (some (writeRequest ses s0 env rAddr).st)
         ⟨(writeRequest ses s0 env rAddr).porter, 0, false⟩).1.porter port
       = none) ∧
    ((readRequest ses2 s2 p renv).porter = p ∧
     (readRequest ses2 s2 p renv).st.closeFn = s2.closeFn) := by
  obtain ⟨lPort, msg, hfree, hmsg, hwok, heq⟩ :=
    writeRequest_inv ses s0 env rAddr hok
  have hlp : lPort = port := by
    rw [heq] at hport
    exact Option.some.inj hport
  subst hlp
  refine ⟨⟨hfree, ?_, ?_⟩, readRequest_porter _ _ _ _,
    readRequest_closeFn _ _ _ _⟩
  · rw [heq]
  · rw [heq]
    simpa [streamClose, porterRelease] using
      lookupPort_release_self env.porter lPort

/-- Witness for C5 (amended): a concrete dial reserves exactly port 49152
and close releases it; a concrete accept leaves the porter as it was and
sets no closure. -/
theorem c5_witness :
    (lookupPort [] 49152 = none ∧
     (writeRequest ⟨1, 0⟩ emptyStream ⟨[], 0, 0, some [], true⟩
       ⟨2, 5000⟩).porter = (49152, .stream) :: [] ∧
     lookupPort
       (streamClose
         (some (writeRequest ⟨1, 0⟩ emptyStream ⟨[], 0, 0, some [], true⟩
           ⟨2, 5000⟩).st)
         ⟨(writeRequest ⟨1, 0⟩ emptyStream ⟨[], 0, 0, some [], true⟩
           ⟨2, 5000⟩).porter, 0, false⟩).1.porter 49152
       = none) ∧
    ((readRequest ⟨2, 1⟩ emptyStream [(5000, .listener)]
        ⟨some ⟨0, ⟨1, 49300⟩, ⟨2, 5000⟩, [],
          some ⟨1, ⟨0, ⟨1, 49300⟩, ⟨2, 5000⟩, []⟩⟩⟩, 0, true⟩).porter
        = [(5000, .listener)] ∧
     (readRequest ⟨2, 1⟩ emptyStream [(5000, .listener)]
        ⟨some ⟨0, ⟨1, 49300⟩, ⟨2, 5000⟩, [],
          some ⟨1, ⟨0, ⟨1, 49300⟩, ⟨2, 5000⟩, []⟩⟩⟩, 0, true⟩).st.closeFn
        = emptyStream.closeFn) :=
  c5_amended_reservations ⟨1, 0⟩ emptyStream ⟨[], 0, 0, some [], true⟩
    ⟨2, 5000⟩ 49152 (by decide) (by decide) ⟨2, 1⟩ emptyStream
    [(5000, .listener)]
    ⟨some ⟨0, ⟨1, 49300⟩, ⟨2, 5000⟩, [],
      some ⟨1, ⟨0, ⟨1, 49300⟩, ⟨2, 5000⟩, []⟩⟩⟩, 0, true⟩

/-- C6: if the dial fails with any error after the ephemeral port was
reserved (handshake-message generation, request write, response read, or
response verification), the reservation is released — the port is absent
from the resulting porter — and the sub-stream is closed before the error
is returned. -/
theorem c6_dial_failure_cleanup (ses : ClientSession) (env : DialEnv)
    (dst : Addr) (port : Nat) (e : Err)
    (hopen : env.openOk = true)
    (hport : (writeRequest ses emptyStream env.wEnv dst).st.closeFn
      = some port)
    (herr : (DialStream ses env dst).err = some e) :
    lookupPort (DialStream ses env dst).porter port = none ∧
    (DialStream ses env dst).subClosed = true :=
  dial_cleanup ses env dst port e hopen hport herr

/-- Witness for C6: a dial whose response read fails (nothing decodes)
after reserving port 49152 ends with that port released and the sub-stream
closed. -/
theorem c6_witness :
    lookupPort
        (DialStream ⟨1, 0⟩ ⟨true, ⟨[], 0, 0, some [], true⟩, ⟨none, true⟩⟩
          ⟨2, 5000⟩).porter 49152 = none ∧
      (DialStream ⟨1, 0⟩ ⟨true, ⟨[], 0, 0, some [], true⟩, ⟨none, true⟩⟩
        ⟨2, 5000⟩).subClosed = true :=
  c6_dial_failure_cleanup ⟨1, 0⟩
    ⟨true, ⟨[], 0, 0, some [], true⟩, ⟨none, true⟩⟩ ⟨2, 5000⟩ 49152
    .decodeFailed rfl (by decide) (by decide)

/-- C7 counterexample: the claim that `Session.Close` releases all porter
reservations owned by the session is false — after `Close` on a session
whose porter holds a stream entry at port 55000, that entry is still
present (the release sweep is commented out in the source). -/
theorem c7_counterexample :
    sessionClose ⟨[(55000, .stream)], false, false⟩
        = ⟨[(55000, .stream)], true, true⟩ ∧
      lookupPort (sessionClose ⟨[(55000, .stream)], false, false⟩).porter
        55000 = some .stream := by
  decide

/-- C7 amended: `Session.Close` initiates a graceful close (GoAway) and
closes the multiplexer — which closes all the session's sub-streams per the
multiplexer contract — but it does not release any porter reservation: the
porter is returned unchanged. -/
theorem c7_close_behavior (s : SessCloseSt) :
    sessionClose s = ⟨s.porter, true, true⟩ := by
  cases s
  rfl

/-- C8 counterexample: the claim that the accepting client responds with an
`Accepted=false` response when no listener is bound is false — on a porter
with no entry at the request's destination port 9999, `writeResponse`
fails with the no-listener error and writes nothing at all to the dialer. -/
theorem c8_counterexample :
    writeResponse ⟨1, 0⟩ ⟨⟨1, 9999⟩, ⟨2, 49300⟩, false, none⟩
        ⟨[], some [], true, true⟩
        ⟨0, ⟨2, 49300⟩, ⟨1, 9999⟩, [], none⟩
      = ⟨some .noListener, none, false⟩ := by
  decide

/-- C8 amended: when the request's destination port does not resolve in the
porter to a listener, the accept fails with the no-listener error and no
response of any kind is written to the dialer; the dialer's reserved port
is then released by its own dial-failure cleanup. -/
theorem c8_no_listener_behavior (ses : ClientSession) (st : StreamSt)
    (env : WriteRespEnv) (req : StreamDialRequest)
    (hnl : lookupPort env.porter st.lAddr.port ≠ some .listener)
    (ses2 : ClientSession) (denv : DialEnv) (dst : Addr) (port : Nat)
    (e : Err)
    (hopen : denv.openOk = true)
    (hport : (writeRequest ses2 emptyStream denv.wEnv dst).st.closeFn
      = some port)
    (herr : (DialStream ses2 denv dst).err = some e) :
    writeResponse ses st env req = ⟨some .noListener, none, false⟩ ∧
    lookupPort (DialStream ses2 denv dst).porter port = none := by
  constructor
  · rcases hl : lookupPort env.porter st.lAddr.port with _ | v
    · simp [writeResponse, hl]
    · cases v
      · exact absurd hl hnl
      · simp [writeResponse, hl]
  · exact (dial_cleanup ses2 denv dst port e hopen hport herr).1

/-- Witness for C8 (amended): with an empty porter, a concrete accept of a
dial to port 9999 yields the no-listener error and writes nothing, and the
concrete failing dialer gets its port 49152 released. -/
theorem c8_witness :
    writeResponse ⟨1, 0⟩ ⟨⟨1, 9999⟩, ⟨2, 49300⟩, false, none⟩
        ⟨[], some [], true, true⟩ ⟨0, ⟨2, 49300⟩, ⟨1, 9999⟩, [], none⟩
      = ⟨some .noListener, none, false⟩ ∧
    lookupPort
      (DialStream ⟨1, 0⟩ ⟨true, ⟨[], 0, 0, some [], true⟩, ⟨none, true⟩⟩
        ⟨2, 9999⟩).porter 49152 = none :=
  c8_no_listener_behavior ⟨1, 0⟩ ⟨⟨1, 9999⟩, ⟨2, 49300⟩, false, none⟩
    ⟨[], some [], true, true⟩ ⟨0, ⟨2, 49300⟩, ⟨1, 9999⟩, [], none⟩
    (by decide) ⟨1, 0⟩ ⟨true, ⟨[], 0, 0, some [], true⟩, ⟨none, true⟩⟩
    ⟨2, 9999⟩ 49152 .decodeFailed rfl (by decide) (by decide)

/-- C9 counterexample: the claim that repeated `Close()` calls invoke the
port-release closure exactly once is false — two `Close` calls on the same
stream invoke the closure twice (the source guards only against a nil
closure, not against re-invocation). -/
theorem c9_counterexample :
    (streamClose (some ⟨⟨1, 50000⟩, ⟨2, 80⟩, true, some 50000⟩)
        (streamClose (some ⟨⟨1, 50000⟩, ⟨2, 80⟩, true, some 50000⟩)
          ⟨[(50000, .stream)], 0, false⟩).1).1.releaseCalls = 2 := by
  decide

/-- C9 amended: `Close` on a nil stream is a no-op returning no error; on a
live stream each `Close` call invokes the port-release closure (once per
call), returns no error, and closes the sub-stream — and because the
porter's release is idempotent, the porter entry for the stream's local
port is absent after the first close and remains absent (the porter is
unchanged by further closes). -/
theorem c9_close_idempotent_release (st : StreamSt) (w : CloseWorld)
    (p : Nat) (hp : st.closeFn = some p) :
    streamClose none w = (w, none) ∧
    (streamClose (some st) w).2 = none ∧
    lookupPort (streamClose (some st) w).1.porter p = none ∧
    (streamClose (some st) (streamClose (some st) w).1).1.porter
      = (streamClose (some st) w).1.porter ∧
    (streamClose (some st) w).1.subClosed = true := by
  refine ⟨rfl, by simp [streamClose, hp], ?_, ?_, by simp [streamClose, hp]⟩
  · simpa [streamClose, hp] using lookupPort_release_self w.porter p
  · simpa [streamClose, hp] using porterRelease_idem w.porter p

/-- Witness for C9 (amended): concrete double close of a stream holding
port 50000 — the entry is gone after the first close and stays gone. -/
theorem c9_witness :
    streamClose none ⟨[(50000, .stream)], 0, false⟩
        = (⟨[(50000, .stream)], 0, false⟩, none) ∧
    (streamClose (some ⟨⟨1, 50000⟩, ⟨2, 80⟩, true, some 50000⟩)
      ⟨[(50000, .stream)], 0, false⟩).2 = none ∧
    lookupPort (streamClose (some ⟨⟨1, 50000⟩, ⟨2, 80⟩, true, some 50000⟩)
      ⟨[(50000, .stream)], 0, false⟩).1.porter 50000 = none ∧
    (streamClose (some ⟨⟨1, 50000⟩, ⟨2, 80⟩, true, some 50000⟩)
      (streamClose (some ⟨⟨1, 50000⟩, ⟨2, 80⟩, true, some 50000⟩)
        ⟨[(50000, .stream)], 0, false⟩).1).1.porter
      = (streamClose (some ⟨⟨1, 50000⟩, ⟨2, 80⟩, true, some 50000⟩)
        ⟨[(50000, .stream)], 0, false⟩).1.porter ∧
    (streamClose (some ⟨⟨1, 50000⟩, ⟨2, 80⟩, true, some 50000⟩)
      ⟨[(50000, .stream)], 0, false⟩).1.subClosed = true :=
  c9_close_idempotent_release ⟨⟨1, 50000⟩, ⟨2, 80⟩, true, some 50000⟩
    ⟨[(50000, .stream)], 0, false⟩ 50000 rfl

/-- C10: for a dial/accept pair where the responder reads exactly the
request the initiator wrote and both handshakes succeed, the initiator's
`LocalAddr` equals the responder's `RemoteAddr` and the initiator's
`RemoteAddr` equals the responder's `LocalAddr` — the initiator's local
address is its own key with the reserved ephemeral port, and the responder
takes its addresses from the request's `DstAddr` and `SrcAddr`. -/
theorem c10_addr_symmetry (ses1 ses2 : ClientSession) (s0 s2 : StreamSt)
    (env : WriteReqEnv) (dst : Addr) (req : StreamDialRequest) (p : Porter)
    (renv : ReadReqEnv)
    (hok : (writeRequest ses1 s0 env dst).err = none)
    (hreq : (writeRequest ses1 s0 env dst).req = some req)
    (hdec : renv.decoded = some req)
    (hrok : (readRequest ses2 s2 p renv).err = none) :
    localAddr (writeRequest ses1 s0 env dst).st
      = remoteAddr (readRequest ses2 s2 p renv).st ∧
    remoteAddr (writeRequest ses1 s0 env dst).st
      = localAddr (readRequest ses2 s2 p renv).st := by
  obtain ⟨lPort, msg, hfree, hmsg, hwok, heq⟩ :=
    writeRequest_inv ses1 s0 env dst hok
  obtain ⟨hra, hrb⟩ := readRequest_ok ses2 s2 p renv req hdec hrok
  have hq : req = StreamDialRequest.SignReq
      ⟨env.now, ⟨ses1.lPK, lPort⟩, dst, msg, none⟩ ses1.lSK := by
    rw [heq] at hreq
    exact (Option.some.inj hreq).symm
  rw [heq]
  simp [localAddr, remoteAddr, hra, hrb, hq, StreamDialRequest.SignReq]

/-- Witness for C10: a concrete dial from key 1 (reserved port 49152) to
`(2, 5000)` accepted by the client with key 2 produces mirrored local and
remote addresses. -/
theorem c10_witness :
    localAddr (writeRequest ⟨1, 0⟩ emptyStream ⟨[], 0, 0, some [], true⟩
        ⟨2, 5000⟩).st
      = remoteAddr (readRequest ⟨2, 1⟩ emptyStream []
        ⟨some ⟨0, ⟨1, 49152⟩, ⟨2, 5000⟩, [],
          some ⟨1, ⟨0, ⟨1, 49152⟩, ⟨2, 5000⟩, []⟩⟩⟩, 0, true⟩).st ∧
    remoteAddr (writeRequest ⟨1, 0⟩ emptyStream ⟨[], 0, 0, some [], true⟩
        ⟨2, 5000⟩).st
      = localAddr (readRequest ⟨2, 1⟩ emptyStream []
        ⟨some ⟨0, ⟨1, 49152⟩, ⟨2, 5000⟩, [],
          some ⟨1, ⟨0, ⟨1, 49152⟩, ⟨2, 5000⟩, []⟩⟩⟩, 0, true⟩).st :=
  c10_addr_symmetry ⟨1, 0⟩ ⟨2, 1⟩ emptyStream emptyStream
    ⟨[], 0, 0, some [], true⟩ ⟨2, 5000⟩
    ⟨0, ⟨1, 49152⟩, ⟨2, 5000⟩, [], some ⟨1, ⟨0, ⟨1, 49152⟩, ⟨2, 5000⟩, []⟩⟩⟩
    [] ⟨some ⟨0, ⟨1, 49152⟩, ⟨2, 5000⟩, [],
      some ⟨1, ⟨0, ⟨1, 49152⟩, ⟨2, 5000⟩, []⟩⟩⟩, 0, true⟩
    (by decide) (by decide) rfl (by decide)

end Dmsg
